import Mathlib

/-!
# Verification of the VOLTTRON `TestServer` mock harness

Shallow embedding of `src/volttrontesting/server_mock.py`: the `TestServer`
class-level registries become a `ServerState` record, dictionaries become
functions `String → _`, Python `datetime` timestamps become rationals, and
fallible operations return `Except PyErr _`.  Callbacks are modelled as pure
Lean functions over a small dynamic value type `Val`.
-/

namespace ServerMock

/-- A small universe of Python run-time values, enough for callback arguments,
keyword arguments, headers and return values. -/
inductive Val where
  | vnone : Val
  | vint : Int → Val
  | vstr : String → Val
  | vbool : Bool → Val
  deriving DecidableEq, Repr

/-- Python exceptions raised by the harness.  `server_mock.py` raises only
`ValueError`, with a message; callbacks may raise arbitrary exceptions, which
we model with the `exception` constructor. -/
inductive PyErr where
  | valueError : String → PyErr
  | exception : String → PyErr
  deriving DecidableEq, Repr

/-- Positional arguments (`*args`). -/
abbrev Args := List Val

/-- Keyword arguments (`**kwargs`) / header dictionaries, as association lists. -/
abbrev KwArgs := List (String × Val)

/-- `dict.get(key)`: first binding for `key`, if any. -/
def dictGet {β : Type} : List (String × β) → String → Option β
  | [], _ => none
  | (k, v) :: rest, key => if k = key then some v else dictGet rest key

/-- The `LifeCycleMembers` enum from `server_mock.py`. -/
inductive LifeCycleMembers where
  | onstart : LifeCycleMembers
  | onsetup : LifeCycleMembers
  | onstop : LifeCycleMembers
  deriving DecidableEq, Repr

/-- `LifeCycleMembers.name` (the Python enum member name). -/
def LifeCycleMembers.name : LifeCycleMembers → String
  | .onstart => "onstart"
  | .onsetup => "onsetup"
  | .onstop => "onstop"

/-- The `ScheduledEvent` dataclass.  Timestamps are rationals; the callback is
a pure function from the stored `args`/`kwargs` to either a raised exception
or a return value.  The `greenlet` field carries no observable state in the
single-threaded model and is omitted. -/
structure ScheduledEvent where
  event_type : String
  callback : Args → KwArgs → Except PyErr Val
  args : Args := []
  kwargs : KwArgs := []
  period : Option ℚ := none
  cron_schedule : Option String := none
  scheduled_time : Option ℚ := none
  created_at : ℚ := 0
  last_run : Option ℚ := none
  run_count : Nat := 0
  cancelled : Bool := false

/-- `TestServer.trigger_scheduled_event`.  Raises `ValueError` on a cancelled
event; otherwise sets `last_run = now`, increments `run_count`, then invokes
`event.callback(*event.args, **event.kwargs)`; a callback exception is
re-raised after those updates.  Returns the callback's outcome together with
the updated event. -/
def trigger_scheduled_event (e : ScheduledEvent) (now : ℚ) :
    Except PyErr Val × ScheduledEvent :=
  if e.cancelled then
    (.error (.valueError "Cannot trigger a cancelled event"), e)
  else
    (e.callback e.args e.kwargs,
     { e with last_run := some now, run_count := e.run_count + 1 })

/-- Trigger an event once at each time in `ts`, in order, keeping only the
evolving event state. -/
def triggerN (e : ScheduledEvent) (ts : List ℚ) : ScheduledEvent :=
  ts.foldl (fun acc t => (trigger_scheduled_event acc t).2) e

/-- The successive event states when triggering at each time in `ts`
(including the initial state). -/
def triggerStates (e : ScheduledEvent) (ts : List ℚ) : List ScheduledEvent :=
  ts.scanl (fun acc t => (trigger_scheduled_event acc t).2) e

/-- Ordering on optional timestamps: an absent `last_run` precedes anything;
present timestamps compare by `≤`. -/
def optLe : Option ℚ → Option ℚ → Prop
  | none, _ => True
  | some _, none => False
  | some a, some b => a ≤ b

lemma trigger_not_cancelled (e : ScheduledEvent) (now : ℚ)
    (h : e.cancelled = false) :
    trigger_scheduled_event e now =
      (e.callback e.args e.kwargs,
       { e with last_run := some now, run_count := e.run_count + 1 }) := by
  simp [trigger_scheduled_event, h]

lemma triggerN_run_count (ts : List ℚ) (e : ScheduledEvent)
    (h : e.cancelled = false) :
    (triggerN e ts).run_count = e.run_count + ts.length := by
  induction ts generalizing e with
  | nil => simp [triggerN]
  | cons t ts ih =>
      have hstep := trigger_not_cancelled e t h
      simp only [triggerN, List.foldl_cons] at *
      rw [hstep]
      rw [ih _ (by simpa using h)]
      simp
      omega

lemma triggerStates_map_lastRun (ts : List ℚ) (e : ScheduledEvent)
    (h : e.cancelled = false) :
    (triggerStates e ts).map ScheduledEvent.last_run =
      e.last_run :: ts.map some := by
  induction ts generalizing e with
  | nil => simp [triggerStates]
  | cons t ts ih =>
      have hstep := trigger_not_cancelled e t h
      simp only [triggerStates, List.scanl] at *
      rw [hstep]
      simp only [List.map_cons]
      have := ih { e with last_run := some t, run_count := e.run_count + 1 }
        (by simpa using h)
      simp only [triggerStates] at this
      rw [this]

lemma chain_optLe_of_sorted (ts : List ℚ) (hts : ts.Chain' (· ≤ ·)) :
    List.Chain' optLe (ts.map some) := by
  rw [List.chain'_map]
  exact hts.imp (fun a b hab => hab)

lemma chain_optLe_none_cons (l : List (Option ℚ)) (hl : List.Chain' optLe l) :
    List.Chain' optLe (none :: l) := by
  cases l with
  | nil => simp
  | cons a l =>
      refine List.Chain'.cons ?_ hl
      trivial

/-- Example callback from the spec's property 5: `callback_with_args(10, multiplier=3)`
returning `30`. -/
def multiplyCb : Args → KwArgs → Except PyErr Val := fun args kwargs =>
  match args, dictGet kwargs "multiplier" with
  | [Val.vint n], some (Val.vint m) => .ok (.vint (n * m))
  | _, _ => .error (.exception "TypeError")

/-- A freshly scheduled periodic event carrying `multiplyCb`. -/
def samplePeriodicEvent : ScheduledEvent :=
  { event_type := "periodic", callback := multiplyCb, args := [Val.vint 10],
    kwargs := [("multiplier", Val.vint 3)], period := some 5 }

/-- A cancelled event whose callback would return `0` if it ever ran. -/
def sampleCancelledEvent : ScheduledEvent :=
  { event_type := "periodic", callback := fun _ _ => .ok (.vint 0),
    period := some 5, run_count := 4, last_run := some 9, cancelled := true }

/-- C1: on a non-cancelled `ScheduledEvent`, `trigger_scheduled_event` invokes
the stored callback with exactly the stored `args`/`kwargs` and returns its
outcome (a raised exception propagates, after bookkeeping); it sets
`last_run = now`, increments `run_count`, and leaves the stored callback,
`args`, `kwargs` and `cancelled` flag unchanged; hence triggering a fresh
active event once at each time of a non-decreasing list `ts` yields
`run_count = ts.length` with the successive `last_run` values non-decreasing. -/
theorem trigger_active_event_spec (e : ScheduledEvent) (now : ℚ) (ts : List ℚ)
    (hc : e.cancelled = false) (h0 : e.run_count = 0) (hlr : e.last_run = none)
    (hts : ts.Chain' (· ≤ ·)) :
    (trigger_scheduled_event e now).1 = e.callback e.args e.kwargs
    ∧ (trigger_scheduled_event e now).2.run_count = e.run_count + 1
    ∧ (trigger_scheduled_event e now).2.last_run = some now
    ∧ (trigger_scheduled_event e now).2.args = e.args
    ∧ (trigger_scheduled_event e now).2.kwargs = e.kwargs
    ∧ (trigger_scheduled_event e now).2.callback = e.callback
    ∧ (trigger_scheduled_event e now).2.cancelled = false
    ∧ (∀ err, e.callback e.args e.kwargs = .error err →
        (trigger_scheduled_event e now).1 = .error err)
    ∧ (triggerN e ts).run_count = ts.length
    ∧ List.Chain' optLe ((triggerStates e ts).map ScheduledEvent.last_run) := by
  have hstep := trigger_not_cancelled e now hc
  refine ⟨?_, ?_, ?_, ?_, ?_, ?_, ?_, ?_, ?_, ?_⟩
  · rw [hstep]
  · rw [hstep]
  · rw [hstep]
  · rw [hstep]
  · rw [hstep]
  · rw [hstep]
  · rw [hstep]; simpa using hc
  · intro err herr; rw [hstep]; exact herr
  · rw [triggerN_run_count ts e hc, h0, Nat.zero_add]
  · rw [triggerStates_map_lastRun ts e hc, hlr]
    exact chain_optLe_none_cons _ (chain_optLe_of_sorted ts hts)

/-- Witness for C1: the spec's worked example — a fresh periodic event with
stored args `(10, multiplier=3)` returns `30` when triggered; three triggers
yield `run_count = 3`. -/
theorem trigger_active_event_spec_witness :
    (samplePeriodicEvent.cancelled = false ∧ samplePeriodicEvent.run_count = 0
      ∧ samplePeriodicEvent.last_run = none
      ∧ ([1, 2, 3] : List ℚ).Chain' (· ≤ ·))
    ∧ (trigger_scheduled_event samplePeriodicEvent 1).1 = .ok (.vint 30)
    ∧ (triggerN samplePeriodicEvent [1, 2, 3]).run_count = 3 := by
  have h := trigger_active_event_spec samplePeriodicEvent 1 [1, 2, 3]
    rfl rfl rfl (by norm_num [List.chain'_cons])
  refine ⟨⟨rfl, rfl, rfl, by norm_num [List.chain'_cons]⟩, ?_, ?_⟩
  · rw [h.1]; rfl
  · simpa using h.2.2.2.2.2.2.2.2.1

/-- C2: `trigger_scheduled_event` on a cancelled event raises
`ValueError("Cannot trigger a cancelled event")` and returns the event
unchanged (`run_count` and `last_run` untouched); the stored callback is
irrelevant to the outcome, i.e. it is never invoked. -/
theorem trigger_cancelled_event_spec (e : ScheduledEvent) (now : ℚ)
    (h : e.cancelled = true) :
    trigger_scheduled_event e now =
      (.error (.valueError "Cannot trigger a cancelled event"), e)
    ∧ (∀ cb, trigger_scheduled_event { e with callback := cb } now =
        (.error (.valueError "Cannot trigger a cancelled event"),
         { e with callback := cb })) := by
  refine ⟨?_, fun cb => ?_⟩ <;> simp [trigger_scheduled_event, h]

/-- Witness for C2: a concrete cancelled event with `run_count = 4`,
`last_run = 9` is rejected untouched. -/
theorem trigger_cancelled_event_spec_witness :
    sampleCancelledEvent.cancelled = true
    ∧ trigger_scheduled_event sampleCancelledEvent 12 =
        (.error (.valueError "Cannot trigger a cancelled event"),
         sampleCancelledEvent) :=
  ⟨rfl, (trigger_cancelled_event_spec sampleCancelledEvent 12 rfl).1⟩

/-- A lifecycle handler: the Python callable together with its `__name__`. -/
structure Handler where
  name : String
  fn : String → KwArgs → Val

/-- An agent as seen by the harness: its `core.identity` and the lifecycle
handlers that `__find_lifecycle_methods__` discovers from its
`@Core.receiver` decorators (source-text scanning is reflection, so the
discovered dictionary is taken as an input of the model). -/
structure AgentM where
  identity : String
  lifecycle : List (LifeCycleMembers × Handler)

/-- The `LogMessage` dataclass. -/
structure LogMessage where
  level : Int
  message : String
  args : Args
  kwargs : KwArgs

/-- Modelled from the spec: `PublishedMessage` of the absent
`memory_pubsub.py`, with the fields §3 lists. -/
structure PublishedMessageM where
  sequence : Nat
  topic : String
  headers : KwArgs
  message : Val
  bus : String

/-- Modelled from the spec: `MemoryPubSub` of the absent `memory_pubsub.py`,
reduced to the message history the claims touch; a freshly constructed router
has an empty history. -/
structure MemoryPubSubM where
  published_messages : List PublishedMessageM

/-- The `TestServer` class-level registries.  All of them are class
attributes in the source, so every instance reads and writes this one shared
record.  Dictionaries keyed by identity become functions with the `.get`
defaults of the source (`None`, resp. `[]`).  The per-identity
`PubSubWrapper`/`ScheduleWrapper` objects hold no state of their own that the
claims observe (a `ScheduleWrapper`'s `_events` list aliases the very event
objects registered in `scheduled_events`), so their registries are presence
maps. -/
structure ServerState where
  connected_agents : String → Option AgentM
  lifecycle_methods : String → Option (List (LifeCycleMembers × Handler))
  methods : String → Option Unit
  pubsub_wrappers : String → Option Unit
  server_pubsub : MemoryPubSubM
  server_log : List LogMessage
  schedule_wrappers : String → Option Unit
  scheduled_events : String → List ScheduledEvent

/-- The empty registries a fresh server starts from. -/
def ServerState.init : ServerState where
  connected_agents := fun _ => none
  lifecycle_methods := fun _ => none
  methods := fun _ => none
  pubsub_wrappers := fun _ => none
  server_pubsub := { published_messages := [] }
  server_log := []
  schedule_wrappers := fun _ => none
  scheduled_events := fun _ => []

/-- `TestServer.__new__`: reassigns every class-level registry, whatever the
previous shared state was. -/
def TestServer_new (_prev : ServerState) : ServerState where
  connected_agents := fun _ => none
  lifecycle_methods := fun _ => none
  methods := fun _ => none
  pubsub_wrappers := fun _ => none
  server_pubsub := { published_messages := [] }
  server_log := []
  schedule_wrappers := fun _ => none
  scheduled_events := fun _ => []

/-- `TestServer.get_published_messages`. -/
def get_published_messages (st : ServerState) : List PublishedMessageM :=
  st.server_pubsub.published_messages

/-- `TestServer.get_server_log`. -/
def get_server_log (st : ServerState) : List LogMessage :=
  st.server_log

/-- `TestServer._register_scheduled_event`: append under the identity,
creating the list if absent. -/
def registerScheduledEvent (st : ServerState) (identity : String)
    (e : ScheduledEvent) : ServerState :=
  { st with scheduled_events := fun i =>
      if i = identity then st.scheduled_events i ++ [e]
      else st.scheduled_events i }

/-- `TestServer.get_scheduled_events`: the raw registered list
(`.get(identity, [])`), with no filtering at all. -/
def get_scheduled_events (st : ServerState) (identity : String) :
    List ScheduledEvent :=
  st.scheduled_events identity

/-- `TestServer.get_periodic_events`. -/
def get_periodic_events (st : ServerState) (identity : String) :
    List ScheduledEvent :=
  (get_scheduled_events st identity).filter
    (fun e => e.event_type == "periodic" && !e.cancelled)

/-- `TestServer.get_cron_events`. -/
def get_cron_events (st : ServerState) (identity : String) :
    List ScheduledEvent :=
  (get_scheduled_events st identity).filter
    (fun e => e.event_type == "cron" && !e.cancelled)

/-- `TestServer.get_time_events`. -/
def get_time_events (st : ServerState) (identity : String) :
    List ScheduledEvent :=
  (get_scheduled_events st identity).filter
    (fun e => e.event_type == "time" && !e.cancelled)

/-- `ScheduleWrapper.periodic` for the wrapper owned by `identity`:
constructs the event with the dataclass defaults (`run_count = 0`,
`cancelled = False`, `last_run = None`, `created_at = now`) and registers it;
the callback is stored, never called. -/
def ScheduleWrapper.periodic (st : ServerState) (identity : String)
    (callback : Args → KwArgs → Except PyErr Val) (period : ℚ)
    (args : Args) (kwargs : KwArgs) (now : ℚ) :
    ScheduledEvent × ServerState :=
  let event : ScheduledEvent :=
    { event_type := "periodic", callback := callback, args := args,
      kwargs := kwargs, period := some period, created_at := now }
  (event, registerScheduledEvent st identity event)

/-- `ScheduleWrapper.cron`. -/
def ScheduleWrapper.cron (st : ServerState) (identity : String)
    (callback : Args → KwArgs → Except PyErr Val) (cron_schedule : String)
    (args : Args) (kwargs : KwArgs) (now : ℚ) :
    ScheduledEvent × ServerState :=
  let event : ScheduledEvent :=
    { event_type := "cron", callback := callback, args := args,
      kwargs := kwargs, cron_schedule := some cron_schedule,
      created_at := now }
  (event, registerScheduledEvent st identity event)

/-- `ScheduleWrapper.schedule` (the `time` kind). -/
def ScheduleWrapper.schedule (st : ServerState) (identity : String)
    (callback : Args → KwArgs → Except PyErr Val) (scheduled_time : ℚ)
    (args : Args) (kwargs : KwArgs) (now : ℚ) :
    ScheduledEvent × ServerState :=
  let event : ScheduledEvent :=
    { event_type := "time", callback := callback, args := args,
      kwargs := kwargs, scheduled_time := some scheduled_time,
      created_at := now }
  (event, registerScheduledEvent st identity event)

/-- `ScheduleWrapper.cancel_all` for the wrapper owned by `identity`: its
`_events` list holds exactly the event objects registered under the identity,
so marking them cancelled is visible through the server's registry. -/
def ScheduleWrapper.cancel_all (st : ServerState) (identity : String) :
    ServerState :=
  { st with scheduled_events := fun i =>
      if i = identity then
        (st.scheduled_events i).map (fun e => { e with cancelled := true })
      else st.scheduled_events i }

/-- Python truthiness of an optional-string argument (`None` and `""` are
falsy). -/
def pyTruthyStr : Option String → Bool
  | none => false
  | some s => if s = "" then false else true

/-- One event against the filters of `verify_event_scheduled`, exactly as its
`for` body tests them: a cancelled event is skipped; a truthy `event_type`
must equal `event.event_type`; a `period` that is not `None` must equal
`event.period`; a truthy `cron_schedule` must equal `event.cron_schedule`. -/
def eventMatches (e : ScheduledEvent) (event_type : Option String)
    (period : Option ℚ) (cron_schedule : Option String) : Bool :=
  if e.cancelled then false
  else if pyTruthyStr event_type = true ∧ event_type ≠ some e.event_type then
    false
  else if period.isSome = true ∧ e.period ≠ period then false
  else if pyTruthyStr cron_schedule = true ∧ e.cron_schedule ≠ cron_schedule
    then false
  else true

/-- How many times the guard `(now - start).total_seconds() < timeout` of
`verify_event_scheduled` holds, when the only elapsed time is the
`gevent.sleep(0.1)` at the end of each iteration: the k-th check sees
elapsed `k/10`, so the loop body runs for every `k` with `k/10 < timeout`. -/
def pollIters (timeout : ℚ) : Nat :=
  if timeout ≤ 0 then 0 else (Int.ceil (10 * timeout)).toNat

/-- The polling loop of `verify_event_scheduled` over a fixed event list (the
single cooperative thread never mutates the registries while the loop
sleeps): each iteration scans the list and returns `True` on the first event
passing every filter. -/
def verifyLoop (events : List ScheduledEvent) (event_type : Option String)
    (period : Option ℚ) (cron_schedule : Option String) : Nat → Bool
  | 0 => false
  | n + 1 =>
      if events.any (fun e => eventMatches e event_type period cron_schedule)
        then true
      else verifyLoop events event_type period cron_schedule n

/-- `TestServer.verify_event_scheduled`, with the wall-clock poll discretized
as in `pollIters`. -/
def verify_event_scheduled (st : ServerState) (identity : String)
    (event_type : Option String) (period : Option ℚ)
    (cron_schedule : Option String) (timeout : ℚ) : Bool :=
  verifyLoop (get_scheduled_events st identity) event_type period
    cron_schedule (pollIters timeout)

lemma verifyLoop_eq_any (events : List ScheduledEvent)
    (event_type : Option String) (period : Option ℚ)
    (cron_schedule : Option String) (n : Nat) :
    verifyLoop events event_type period cron_schedule n =
      (decide (0 < n) &&
        events.any (fun e => eventMatches e event_type period cron_schedule)) := by
  induction n with
  | zero => simp [verifyLoop]
  | succ n ih =>
      by_cases h : events.any
          (fun e => eventMatches e event_type period cron_schedule) = true
      · simp [verifyLoop, h]
      · simp only [Bool.not_eq_true] at h
        simp [verifyLoop, h, ih]

lemma pollIters_pos (timeout : ℚ) (ht : 0 < timeout) : 0 < pollIters timeout := by
  have h1 : ¬ timeout ≤ 0 := not_le.mpr ht
  have h2 : (0 : ℤ) < Int.ceil (10 * timeout) := by
    rw [Int.ceil_pos]
    positivity
  simp only [pollIters, h1, if_false]
  omega

/-- The registration of one fresh periodic event for `"agent1"` on an
otherwise empty server. -/
def sampleRegistered : ScheduledEvent × ServerState :=
  ScheduleWrapper.periodic ServerState.init "agent1" multiplyCb 5
    [Val.vint 10] [("multiplier", Val.vint 3)] 0

/-- Counterexample to C3 as stated: with `timeout = 0` the loop guard (checked
before the first scan) already fails, so `verify_event_scheduled` returns
`false` even though a non-cancelled event matching every given filter is
registered at call time. -/
theorem verify_event_scheduled_cex :
    get_scheduled_events sampleRegistered.2 "agent1" = [sampleRegistered.1]
    ∧ eventMatches sampleRegistered.1 (some "periodic") (some 5) none = true
    ∧ verify_event_scheduled sampleRegistered.2 "agent1" (some "periodic")
        (some 5) none 0 = false := by
  refine ⟨?_, ?_, ?_⟩ <;> rfl

/-- C3 (amended: for a strictly positive `timeout`): `verify_event_scheduled`
returns `true` exactly when the registered list holds a non-cancelled event
matching all given filters at call time — in particular it returns `true`
at the first scan when one exists, `false` otherwise — and it always
terminates, after at most `pollIters timeout` scans. -/
theorem verify_event_scheduled_pos_timeout (st : ServerState)
    (identity : String) (event_type : Option String) (period : Option ℚ)
    (cron_schedule : Option String) (timeout : ℚ) (ht : 0 < timeout) :
    verify_event_scheduled st identity event_type period cron_schedule
        timeout =
      (get_scheduled_events st identity).any
        (fun e => eventMatches e event_type period cron_schedule) := by
  rw [verify_event_scheduled, verifyLoop_eq_any]
  have := pollIters_pos timeout ht
  simp [this]

/-- Witness for the amended C3: with `timeout = 1` the registered matching
event is found (`true`) while filters nothing matches give `false`. -/
theorem verify_event_scheduled_pos_timeout_witness :
    (0 : ℚ) < 1
    ∧ verify_event_scheduled sampleRegistered.2 "agent1" (some "periodic")
        (some 5) none 1 = true
    ∧ verify_event_scheduled sampleRegistered.2 "agent1" (some "cron") none
        none 1 = false := by
  refine ⟨one_pos, ?_, ?_⟩
  · rw [verify_event_scheduled_pos_timeout sampleRegistered.2 "agent1"
      (some "periodic") (some 5) none 1 one_pos]
    rfl
  · rw [verify_event_scheduled_pos_timeout sampleRegistered.2 "agent1"
      (some "cron") none none 1 one_pos]
    rfl

/-- C10: with `timeout ≤ 0` the poll-loop guard is checked before the first
scan of the event list, so `verify_event_scheduled` returns `false` for every
state and filter combination, a matching event notwithstanding. -/
theorem verify_event_scheduled_nonpos_timeout (st : ServerState)
    (identity : String) (event_type : Option String) (period : Option ℚ)
    (cron_schedule : Option String) (timeout : ℚ) (ht : timeout ≤ 0) :
    verify_event_scheduled st identity event_type period cron_schedule
      timeout = false := by
  rw [verify_event_scheduled, pollIters, if_pos ht]
  rfl

/-- Witness for C10: `timeout = 0` on a state that does hold a matching
non-cancelled event still yields `false`. -/
theorem verify_event_scheduled_nonpos_timeout_witness :
    (0 : ℚ) ≤ 0
    ∧ eventMatches sampleRegistered.1 none (some 5) none = true
    ∧ verify_event_scheduled sampleRegistered.2 "agent1" none (some 5) none 0
        = false :=
  ⟨le_refl 0, rfl,
   verify_event_scheduled_nonpos_timeout sampleRegistered.2 "agent1" none
     (some 5) none 0 (le_refl 0)⟩

/-- A registration performed for an identity no agent ever connected under:
nothing in `ScheduleWrapper` or `_register_scheduled_event` consults
`connected_agents`. -/
def sampleGhostRegistered : ScheduledEvent × ServerState :=
  ScheduleWrapper.periodic ServerState.init "ghost"
    (fun _ _ => Except.ok Val.vnone) 5 [] [] 0

/-- Counterexample to C4 as stated: on a server with no connected agents at
all, `ScheduleWrapper.periodic` for the unknown owner `"ghost"` does not fail
— it registers the event under `"ghost"` all the same, so no scheduling call
validates that the owner is a known identity. -/
theorem schedule_validates_owner_cex :
    ServerState.init.connected_agents "ghost" = none
    ∧ get_scheduled_events sampleGhostRegistered.2 "ghost" =
        [sampleGhostRegistered.1]
    ∧ sampleGhostRegistered.1.run_count = 0
    ∧ sampleGhostRegistered.1.cancelled = false :=
  ⟨rfl, rfl, rfl, rfl⟩

/-- C4 (amended: the owner is never validated): each scheduling call
(`periodic`, `cron`, `schedule`) constructs a `ScheduledEvent` of its kind
with `run_count = 0`, `cancelled = false`, `last_run = none` and the stored
callback/args/kwargs, registers it under the owner — known identity or not —
so that it appears appended to the owner's event query, returns it, leaves
every other identity's events untouched, and never executes the callback at
registration time (its bookkeeping still shows zero runs). -/
theorem schedule_calls_spec (st : ServerState) (identity : String)
    (cb : Args → KwArgs → Except PyErr Val) (p : ℚ) (cs : String)
    (stime : ℚ) (args : Args) (kwargs : KwArgs) (now : ℚ) :
    (let r := ScheduleWrapper.periodic st identity cb p args kwargs now
     r.1.run_count = 0 ∧ r.1.cancelled = false ∧ r.1.last_run = none
     ∧ r.1.event_type = "periodic" ∧ r.1.period = some p ∧ r.1.callback = cb
     ∧ r.1.args = args ∧ r.1.kwargs = kwargs
     ∧ get_scheduled_events r.2 identity =
         get_scheduled_events st identity ++ [r.1]
     ∧ ∀ j, j ≠ identity →
         get_scheduled_events r.2 j = get_scheduled_events st j)
    ∧ (let r := ScheduleWrapper.cron st identity cb cs args kwargs now
       r.1.run_count = 0 ∧ r.1.cancelled = false ∧ r.1.last_run = none
       ∧ r.1.event_type = "cron" ∧ r.1.cron_schedule = some cs
       ∧ r.1.callback = cb ∧ r.1.args = args ∧ r.1.kwargs = kwargs
       ∧ get_scheduled_events r.2 identity =
           get_scheduled_events st identity ++ [r.1]
       ∧ ∀ j, j ≠ identity →
           get_scheduled_events r.2 j = get_scheduled_events st j)
    ∧ (let r := ScheduleWrapper.schedule st identity cb stime args kwargs now
       r.1.run_count = 0 ∧ r.1.cancelled = false ∧ r.1.last_run = none
       ∧ r.1.event_type = "time" ∧ r.1.scheduled_time = some stime
       ∧ r.1.callback = cb ∧ r.1.args = args ∧ r.1.kwargs = kwargs
       ∧ get_scheduled_events r.2 identity =
           get_scheduled_events st identity ++ [r.1]
       ∧ ∀ j, j ≠ identity →
           get_scheduled_events r.2 j = get_scheduled_events st j) := by
  refine ⟨?_, ?_, ?_⟩ <;>
    refine ⟨rfl, rfl, rfl, rfl, rfl, rfl, rfl, rfl, ?_, ?_⟩ <;>
    simp [ScheduleWrapper.periodic, ScheduleWrapper.cron,
      ScheduleWrapper.schedule, registerScheduledEvent, get_scheduled_events]

/-- C9: `ScheduleWrapper.cancel_all` only flips the `cancelled` flag — the
unfiltered `get_scheduled_events` view keeps every event (same list, each
marked cancelled, same length) — while the kind-filtered queries hold exactly
the non-cancelled events of their kind, so they are empty after
`cancel_all`. -/
theorem cancel_all_query_spec (st : ServerState) (identity : String) :
    get_scheduled_events (ScheduleWrapper.cancel_all st identity) identity =
      (get_scheduled_events st identity).map
        (fun e => { e with cancelled := true })
    ∧ (get_scheduled_events (ScheduleWrapper.cancel_all st identity)
        identity).length = (get_scheduled_events st identity).length
    ∧ (∀ e, e ∈ get_periodic_events st identity ↔
        e ∈ get_scheduled_events st identity ∧ e.event_type = "periodic"
          ∧ e.cancelled = false)
    ∧ (∀ e, e ∈ get_cron_events st identity ↔
        e ∈ get_scheduled_events st identity ∧ e.event_type = "cron"
          ∧ e.cancelled = false)
    ∧ (∀ e, e ∈ get_time_events st identity ↔
        e ∈ get_scheduled_events st identity ∧ e.event_type = "time"
          ∧ e.cancelled = false)
    ∧ get_periodic_events (ScheduleWrapper.cancel_all st identity) identity
        = []
    ∧ get_cron_events (ScheduleWrapper.cancel_all st identity) identity = []
    ∧ get_time_events (ScheduleWrapper.cancel_all st identity) identity
        = [] := by
  refine ⟨?_, ?_, ?_, ?_, ?_, ?_, ?_, ?_⟩
  · simp [ScheduleWrapper.cancel_all, get_scheduled_events]
  · simp [ScheduleWrapper.cancel_all, get_scheduled_events]
  · intro e
    simp [get_periodic_events, List.mem_filter, and_assoc]
  · intro e
    simp [get_cron_events, List.mem_filter, and_assoc]
  · intro e
    simp [get_time_events, List.mem_filter, and_assoc]
  · simp [get_periodic_events, get_scheduled_events,
      ScheduleWrapper.cancel_all, List.filter_map, Function.comp]
  · simp [get_cron_events, get_scheduled_events,
      ScheduleWrapper.cancel_all, List.filter_map, Function.comp]
  · simp [get_time_events, get_scheduled_events,
      ScheduleWrapper.cancel_all, List.filter_map, Function.comp]

/-- `TestServer.connect_agent`: rejects a falsy (empty) identity, then a
duplicate identity, both before any registry is touched; on success records
the agent, its discovered lifecycle dictionary, and its
`PubSubWrapper`/`ScheduleWrapper` under the identity.  (The log-sink
attachment rebinds the passed logger's methods and adds no observable
registry state here.) -/
def connect_agent (st : ServerState) (agent : AgentM) :
    Except PyErr ServerState :=
  if agent.identity = "" then
    .error (.valueError "Agent identity must be set to use this test server.")
  else if (st.connected_agents agent.identity).isSome then
    .error (.valueError
      ("Agent " ++ agent.identity ++ " is already on server."))
  else
    .ok { st with
      connected_agents := fun i =>
        if i = agent.identity then some agent else st.connected_agents i
      lifecycle_methods := fun i =>
        if i = agent.identity then some agent.lifecycle
        else st.lifecycle_methods i
      pubsub_wrappers := fun i =>
        if i = agent.identity then some () else st.pubsub_wrappers i
      schedule_wrappers := fun i =>
        if i = agent.identity then some () else st.schedule_wrappers i }

/-- An agent whose `@Core.receiver('onsetup')` method is a function named
`my_setup` that returns the sender it was called with. -/
def sampleAgent : AgentM :=
  { identity := "agent1",
    lifecycle := [(LifeCycleMembers.onsetup,
      { name := "my_setup", fn := fun sender _ => Val.vstr sender })] }

/-- A server on which `sampleAgent` is already connected. -/
def sampleConnected : ServerState :=
  { ServerState.init with
    connected_agents := fun i =>
      if i = "agent1" then some sampleAgent else none
    lifecycle_methods := fun i =>
      if i = "agent1" then some sampleAgent.lifecycle else none
    pubsub_wrappers := fun i => if i = "agent1" then some () else none
    schedule_wrappers := fun i => if i = "agent1" then some () else none }

/-- Counterexample to C5 as stated: an agent whose identity (`""`) is
distinct from every connected identity is still rejected — `connect_agent`
fails on any falsy identity before the duplicate check. -/
theorem connect_agent_cex :
    ServerState.init.connected_agents "" = none
    ∧ connect_agent ServerState.init { identity := "", lifecycle := [] } =
        .error
          (.valueError "Agent identity must be set to use this test server.") :=
  ⟨rfl, rfl⟩

/-- C5 (amended: for a non-empty identity): connecting an agent whose
identity is already connected fails with the duplicate-identity `ValueError`
and no registry changes (the existing registration stands); connecting an
agent with a distinct non-empty identity succeeds and records it, leaving
every other identity's registration untouched — so each identity maps to at
most one connected agent. -/
theorem connect_agent_spec (st : ServerState) (a : AgentM)
    (hne : a.identity ≠ "") :
    ((st.connected_agents a.identity).isSome →
      connect_agent st a = .error (.valueError
        ("Agent " ++ a.identity ++ " is already on server.")))
    ∧ (st.connected_agents a.identity = none →
      ∃ st2, connect_agent st a = .ok st2
        ∧ st2.connected_agents a.identity = some a
        ∧ st2.lifecycle_methods a.identity = some a.lifecycle
        ∧ st2.pubsub_wrappers a.identity = some ()
        ∧ st2.schedule_wrappers a.identity = some ()
        ∧ ∀ j, j ≠ a.identity →
            st2.connected_agents j = st.connected_agents j) := by
  constructor
  · intro hdup
    simp [connect_agent, hne, hdup]
  · intro hfree
    refine ⟨{ st with
      connected_agents := fun i =>
        if i = a.identity then some a else st.connected_agents i
      lifecycle_methods := fun i =>
        if i = a.identity then some a.lifecycle else st.lifecycle_methods i
      pubsub_wrappers := fun i =>
        if i = a.identity then some () else st.pubsub_wrappers i
      schedule_wrappers := fun i =>
        if i = a.identity then some () else st.schedule_wrappers i },
      ?_, ?_, ?_, ?_, ?_, ?_⟩
    · simp [connect_agent, hne, hfree]
    · simp
    · simp
    · simp
    · simp
    · intro j hj
      simp [hj]

/-- Witness for the amended C5: connecting `sampleAgent` on a fresh server
succeeds; connecting it again on a server already holding `agent1` fails with
the duplicate error. -/
theorem connect_agent_spec_witness :
    sampleAgent.identity ≠ ""
    ∧ connect_agent sampleConnected sampleAgent =
        .error (.valueError "Agent agent1 is already on server.")
    ∧ ∃ st2, connect_agent ServerState.init sampleAgent = .ok st2
        ∧ st2.connected_agents "agent1" = some sampleAgent := by
  have hdup := (connect_agent_spec sampleConnected sampleAgent
    (by decide)).1 rfl
  have hok := (connect_agent_spec ServerState.init sampleAgent
    (by decide)).2 rfl
  refine ⟨by decide, hdup, ?_⟩
  obtain ⟨st2, h1, h2, _⟩ := hok
  exact ⟨st2, h1, h2⟩

/-- `dict.get` on a lifecycle dictionary. -/
def lcmGet : List (LifeCycleMembers × Handler) → LifeCycleMembers →
    Option Handler
  | [], _ => none
  | (k, v) :: rest, key => if k = key then some v else lcmGet rest key

/-- The `ServerResponse` dataclass. -/
structure ServerResponse where
  identity : String
  called_method : String
  response : Val
  deriving DecidableEq, Repr

/-- `__execute_lifecycle_method__`: look the hook up in the agent's lifecycle
dictionary; raise `ValueError` when absent, otherwise call the handler with
`(sender, **kwargs)` and wrap identity, the handler's `__name__` and its
return value into a `ServerResponse`. -/
def execute_lifecycle_method (identity : String) (lcm : LifeCycleMembers)
    (members : List (LifeCycleMembers × Handler)) (sender : String)
    (kwargs : KwArgs) : Except PyErr ServerResponse :=
  match lcmGet members lcm with
  | none => .error (.valueError
      (lcm.name ++ " lifecycle method is not found in agent " ++ identity))
  | some h => .ok
      { identity := identity, called_method := h.name,
        response := h.fn sender kwargs }

/-- `TestServer.__get_lifecycle_members__`: requires the identity to be
connected and its lifecycle dictionary populated. -/
def get_lifecycle_members (st : ServerState) (identity : String) :
    Except PyErr (List (LifeCycleMembers × Handler)) :=
  if (st.connected_agents identity).isNone then
    .error (.valueError "connect_agent must be called before the called method")
  else
    match st.lifecycle_methods identity with
    | none => .error (.valueError
        ("Lifecycle methods not populated for agent: (" ++ identity ++ ")"))
    | some m => .ok m

/-- `TestServer.trigger_setup_event`. -/
def trigger_setup_event (st : ServerState) (identity : String)
    (sender : String) (kwargs : KwArgs) : Except PyErr ServerResponse :=
  (get_lifecycle_members st identity).bind fun members =>
    execute_lifecycle_method identity LifeCycleMembers.onsetup members sender
      kwargs

/-- `TestServer.trigger_start_event`. -/
def trigger_start_event (st : ServerState) (identity : String)
    (sender : String) (kwargs : KwArgs) : Except PyErr ServerResponse :=
  (get_lifecycle_members st identity).bind fun members =>
    execute_lifecycle_method identity LifeCycleMembers.onstart members sender
      kwargs

/-- `TestServer.trigger_stop_event`. -/
def trigger_stop_event (st : ServerState) (identity : String)
    (sender : String) (kwargs : KwArgs) : Except PyErr ServerResponse :=
  (get_lifecycle_members st identity).bind fun members =>
    execute_lifecycle_method identity LifeCycleMembers.onstop members sender
      kwargs

/-- Counterexample to C6 as stated: the `Response` of a lifecycle trigger
carries the handler function's own `__name__` (here `my_setup`), not the
hook's name (`onsetup`): at a concrete connected agent the returned
`called_method` differs from the hook's name. -/
theorem trigger_lifecycle_cex :
    trigger_setup_event sampleConnected "agent1" "platform" [] =
      .ok { identity := "agent1", called_method := "my_setup",
            response := Val.vstr "platform" }
    ∧ "my_setup" ≠ LifeCycleMembers.onsetup.name
    ∧ "my_setup" ≠ "setup" :=
  ⟨rfl, by decide, by decide⟩

/-- C6 (amended: the `Response` holds the handler function's name, not the
hook's): for a connected identity with a populated lifecycle dictionary, each
trigger looks up its hook; a missing handler fails with the
lifecycle-not-found `ValueError`, and a present handler is called with
`(sender, **kwargs)`, the result being wrapped with the identity and the
handler's `__name__` into a `ServerResponse`. -/
theorem trigger_lifecycle_spec (st : ServerState) (identity sender : String)
    (kwargs : KwArgs) (members : List (LifeCycleMembers × Handler))
    (hconn : (st.connected_agents identity).isSome)
    (hmem : st.lifecycle_methods identity = some members) :
    (∀ h, lcmGet members LifeCycleMembers.onsetup = some h →
      trigger_setup_event st identity sender kwargs =
        .ok { identity := identity, called_method := h.name,
              response := h.fn sender kwargs })
    ∧ (lcmGet members LifeCycleMembers.onsetup = none →
      trigger_setup_event st identity sender kwargs = .error (.valueError
        ("onsetup lifecycle method is not found in agent " ++ identity)))
    ∧ (∀ h, lcmGet members LifeCycleMembers.onstart = some h →
      trigger_start_event st identity sender kwargs =
        .ok { identity := identity, called_method := h.name,
              response := h.fn sender kwargs })
    ∧ (lcmGet members LifeCycleMembers.onstart = none →
      trigger_start_event st identity sender kwargs = .error (.valueError
        ("onstart lifecycle method is not found in agent " ++ identity)))
    ∧ (∀ h, lcmGet members LifeCycleMembers.onstop = some h →
      trigger_stop_event st identity sender kwargs =
        .ok { identity := identity, called_method := h.name,
              response := h.fn sender kwargs })
    ∧ (lcmGet members LifeCycleMembers.onstop = none →
      trigger_stop_event st identity sender kwargs = .error (.valueError
        ("onstop lifecycle method is not found in agent " ++ identity))) := by
  have hnotnone : ¬ (st.connected_agents identity).isNone := by
    simp only [Option.isNone_iff_eq_none]
    intro hnone
    rw [hnone] at hconn
    simp at hconn
  have hmembers : get_lifecycle_members st identity = .ok members := by
    simp [get_lifecycle_members, hnotnone, hmem]
  refine ⟨fun h hh => ?_, fun hh => ?_, fun h hh => ?_, fun hh => ?_,
    fun h hh => ?_, fun hh => ?_⟩ <;>
  simp [trigger_setup_event, trigger_start_event, trigger_stop_event,
    hmembers, execute_lifecycle_method, hh, LifeCycleMembers.name,
    Except.bind]

/-- Witness for the amended C6: on `sampleConnected`, the setup trigger calls
`my_setup` and wraps its result; the start trigger (no `onstart` handler)
fails with the not-found error. -/
theorem trigger_lifecycle_spec_witness :
    ((sampleConnected.connected_agents "agent1").isSome
      ∧ sampleConnected.lifecycle_methods "agent1" =
          some sampleAgent.lifecycle)
    ∧ trigger_setup_event sampleConnected "agent1" "srv" [] =
        .ok { identity := "agent1", called_method := "my_setup",
              response := Val.vstr "srv" }
    ∧ trigger_start_event sampleConnected "agent1" "srv" [] =
        .error (.valueError
          "onstart lifecycle method is not found in agent agent1") := by
  have h := trigger_lifecycle_spec sampleConnected "agent1" "srv" []
    sampleAgent.lifecycle rfl rfl
  refine ⟨⟨rfl, rfl⟩, ?_, ?_⟩
  · exact h.1 _ rfl
  · have := h.2.2.2.1 rfl
    simpa using this

/-- The tuple of arguments the `_do_subscribe` forwarder passes to the
agent-facing callback: `(peer, sender, bus, topic, headers, message)`. -/
structure VipCallbackArgs where
  peer : String
  sender : Val
  bus : String
  topic : String
  headers : KwArgs
  message : Val
  deriving DecidableEq, Repr

/-- The `wrapper_callback` closure built by `PubSubWrapper._do_subscribe`
around a subscription's `peer` argument: it receives the router-facing
`(topic, headers, message, bus)`, replaces absent headers with `{}`, derives
`sender` from `headers.get('sender', 'unknown')`, and invokes the agent
callback with `(peer, sender, bus, topic, headers, message)`. -/
def wrapper_callback (peer : String) (topic : String)
    (headers : Option KwArgs) (message : Val) (bus : String) :
    VipCallbackArgs :=
  let h := match headers with
    | none => []
    | some hs => hs
  let sender := match dictGet h "sender" with
    | none => Val.vstr "unknown"
    | some v => v
  { peer := peer, sender := sender, bus := bus, topic := topic,
    headers := h, message := message }

/-- Counterexample to C7 as stated: there is no fixed `peer` value the
forwarder supplies — it passes through whatever `peer` the subscribe call
captured, so two subscriptions made with different `peer` arguments deliver
different `peer` values. -/
theorem pubsub_forwarder_cex :
    ¬ ∃ p : String, ∀ (peer topic : String) (headers : Option KwArgs)
        (message : Val) (bus : String),
        (wrapper_callback peer topic headers message bus).peer = p := by
  rintro ⟨p, hp⟩
  have ha := hp "routerA" "t" none Val.vnone ""
  have hb := hp "routerB" "t" none Val.vnone ""
  rw [show (wrapper_callback "routerA" "t" none Val.vnone "").peer = "routerA"
    from rfl] at ha
  rw [show (wrapper_callback "routerB" "t" none Val.vnone "").peer = "routerB"
    from rfl] at hb
  rw [← ha] at hb
  exact absurd hb (by decide)

/-- C7 (amended: the forwarder supplies as `peer` the value captured from the
subscribe call, constant across that subscription's deliveries, rather than a
fixed router constant): delivery converts `(topic, headers, message, bus)`
into `(peer, sender, bus, topic, headers, message)`, with `sender` the
`'sender'` entry of `headers` and the sentinel `"unknown"` when headers are
absent or lack that entry (absent headers are replaced by the empty dict). -/
theorem pubsub_forwarder_spec (peer topic bus : String) (h : KwArgs)
    (message : Val) :
    wrapper_callback peer topic none message bus =
      { peer := peer, sender := Val.vstr "unknown", bus := bus,
        topic := topic, headers := [], message := message }
    ∧ (dictGet h "sender" = none →
      wrapper_callback peer topic (some h) message bus =
        { peer := peer, sender := Val.vstr "unknown", bus := bus,
          topic := topic, headers := h, message := message })
    ∧ (∀ v, dictGet h "sender" = some v →
      wrapper_callback peer topic (some h) message bus =
        { peer := peer, sender := v, bus := bus, topic := topic,
          headers := h, message := message }) := by
  refine ⟨rfl, fun hn => ?_, fun v hv => ?_⟩
  · simp [wrapper_callback, hn]
  · simp [wrapper_callback, hv]

/-- Witness for the amended C7: concrete deliveries — headers with a
`sender` entry pass it through; absent headers give the `"unknown"`
sentinel and the empty dict. -/
theorem pubsub_forwarder_spec_witness :
    dictGet [("sender", Val.vstr "dev1")] "sender" = some (Val.vstr "dev1")
    ∧ wrapper_callback "pubsub" "devices/all"
        (some [("sender", Val.vstr "dev1")]) Val.vnone "" =
      { peer := "pubsub", sender := Val.vstr "dev1", bus := "",
        topic := "devices/all", headers := [("sender", Val.vstr "dev1")],
        message := Val.vnone }
    ∧ wrapper_callback "pubsub" "devices/all" none Val.vnone "" =
      { peer := "pubsub", sender := Val.vstr "unknown", bus := "",
        topic := "devices/all", headers := [], message := Val.vnone } := by
  refine ⟨rfl, ?_, ?_⟩
  · exact (pubsub_forwarder_spec "pubsub" "devices/all" ""
      [("sender", Val.vstr "dev1")] Val.vnone).2.2 _ rfl
  · exact (pubsub_forwarder_spec "pubsub" "devices/all" ""
      [("sender", Val.vstr "dev1")] Val.vnone).1

/-- C8: every `TestServer` registry is class-level state reassigned by
`__new__`, so constructing a new `TestServer` resets the one shared state to
the empty registries whatever it held before — two constructions from any two
previous states agree, every registry of the fresh state is empty, and since
all instances read that single shared state, prior instances observe the
erasure; distinct instances are never independent. -/
theorem testserver_new_resets (st st2 : ServerState) (identity : String) :
    TestServer_new st = ServerState.init
    ∧ TestServer_new st = TestServer_new st2
    ∧ (TestServer_new st).connected_agents identity = none
    ∧ (TestServer_new st).lifecycle_methods identity = none
    ∧ (TestServer_new st).methods identity = none
    ∧ (TestServer_new st).pubsub_wrappers identity = none
    ∧ (TestServer_new st).schedule_wrappers identity = none
    ∧ get_scheduled_events (TestServer_new st) identity = []
    ∧ get_published_messages (TestServer_new st) = []
    ∧ get_server_log (TestServer_new st) = [] :=
  ⟨rfl, rfl, rfl, rfl, rfl, rfl, rfl, rfl, rfl, rfl⟩

end ServerMock
